import Mathlib

/-!
Verification of the command-buffer recording engine of the Intel Vulkan ICD
(src/icd/intel of the VulkanTools repository), against its natural-language
specification.  The embedding below translates the hazard/cache-flush
resolver (cmd_barrier.c, cmd_batch_flush in cmd_pipeline.c), the workaround
sequencer, the relocation table (cmd_priv.h), the binding-table emitter, the
shader cache, primitive-restart validation and the viewport guard-band
computation into executable Lean definitions, and proves the specified
properties about them.

Machine integers are modelled as Nat with explicit bitwise operations;
bit constants whose numeric values live in headers outside the covered
sources (genhw/genhw.h, vulkan.h) are given distinct power-of-two values,
following the bit indices quoted from the PRM in cmd_pipeline.c's comments
where available; every property proved depends only on the constants being
distinct bits, never on their particular values.
-/

namespace VulkanToolsSpec

/-! ### PIPE_CONTROL DW1 flag bits (genhw/genhw.h, not under src/).
Bit indices [0], [1], [12], [13] are documented by the PRM quotes inside
cmd_pipeline.c; the remaining bits are distinct positions of the same
32-bit flag word. -/

def GEN6_PIPE_CONTROL_DEPTH_CACHE_FLUSH : Nat := 2 ^ 0

def GEN6_PIPE_CONTROL_PIXEL_SCOREBOARD_STALL : Nat := 2 ^ 1

def GEN6_PIPE_CONTROL_CONSTANT_CACHE_INVALIDATE : Nat := 2 ^ 3

def GEN6_PIPE_CONTROL_VF_CACHE_INVALIDATE : Nat := 2 ^ 4

def GEN7_PIPE_CONTROL_DC_FLUSH : Nat := 2 ^ 5

def GEN6_PIPE_CONTROL_TEXTURE_CACHE_INVALIDATE : Nat := 2 ^ 10

def GEN6_PIPE_CONTROL_INSTRUCTION_CACHE_INVALIDATE : Nat := 2 ^ 11

def GEN6_PIPE_CONTROL_RENDER_CACHE_FLUSH : Nat := 2 ^ 12

def GEN6_PIPE_CONTROL_DEPTH_STALL : Nat := 2 ^ 13

def GEN6_PIPE_CONTROL_WRITE_IMM : Nat := 2 ^ 14

def GEN6_PIPE_CONTROL_CS_STALL : Nat := 2 ^ 20

/-- Per-draw workaround idempotency flag stored in bind.wa_flags (cmd.h is
not under src/; only this single flag is ever tested against bind.wa_flags
in the covered sources). -/
def INTEL_CMD_WA_GEN6_PRE_DEPTH_STALL_WRITE : Nat := 2 ^ 0

/-- Hardware generation encoding: INTEL_GEN(x) = x * 100, so that
INTEL_GEN(7.5) is an integer.  gpu.h is not under src/; only the ordering
of the three generations matters to any theorem below. -/
def INTEL_GEN6 : Nat := 600

def INTEL_GEN7 : Nat := 700

def INTEL_GEN75 : Nat := 750

/-! ### The command buffer state.
`struct intel_cmd` restricted to the fields the covered code paths touch.
The batch writer is abstracted to the list of PIPE_CONTROL DW1 flag words
written into it (the only packets the hazard resolver and workaround
sequencer emit); the surface writer keeps its byte-offset high-water mark
together with the list of records written (offset plus payload); the
relocation table keeps the counters of cmd_priv.h plus the list of table
indices that entries were stored at; `waEmits` counts executions of the
flag-guarded workaround body (instrumentation used to state the
once-per-draw property). -/

inductive SurfRecord where
  | surface (words : List Nat)
  | nullView (words : List Nat)
  | table (entries : List Nat)
deriving DecidableEq

structure IntelCmd where
  gen : Nat
  batch : List Nat
  drawCount : Nat
  waFlags : Nat
  waEmits : Nat
  renderPassChanged : Bool
  failed : Bool
  relocUsed : Nat
  relocCount : Nat
  relocWritten : List Nat
  surfUsed : Nat
  surfSba : Nat
  surfRecords : List (Nat × SurfRecord)
  instrUsed : Nat
  instrWrites : List (Nat × Nat)
  cacheEntries : List (Nat × Nat)
  cacheCount : Nat
  dsOps : List Nat
deriving DecidableEq

/-- A freshly begun command buffer (recording started, nothing recorded). -/
def freshCmd : IntelCmd :=
  { gen := INTEL_GEN7
    batch := []
    drawCount := 0
    waFlags := 0
    waEmits := 0
    renderPassChanged := true
    failed := false
    relocUsed := 0
    relocCount := 4096
    relocWritten := []
    surfUsed := 0
    surfSba := 0
    surfRecords := []
    instrUsed := 0
    instrWrites := []
    cacheEntries := []
    cacheCount := 0
    dsOps := [] }

/-- cmd_fail (cmd_priv.h): record the terminal failure code on the command
buffer (the VkResult value itself is abstracted to a flag). -/
def cmd_fail (s : IntelCmd) : IntelCmd :=
  { s with failed := true }

/-- cmd_reserve_reloc (cmd_priv.h): if the outstanding count would exceed
the pre-reserved capacity, reset the outstanding count and mark the command
buffer failed. -/
def cmd_reserve_reloc (s : IntelCmd) (reloc_len : Nat) : IntelCmd :=
  if s.relocUsed + reloc_len > s.relocCount then
    cmd_fail { s with relocUsed := 0 }
  else
    s

/-- cmd_writer_reloc (cmd_priv.h): store one relocation entry at table index
reloc_used and advance the count.  The entry payload (writer, offset,
target, flags) is abstracted away; `relocWritten` records the table index
each entry was stored at, which is what the capacity claim is about. -/
def cmd_writer_reloc (s : IntelCmd) : IntelCmd :=
  { s with
    relocWritten := s.relocWritten ++ [s.relocUsed]
    relocUsed := s.relocUsed + 1 }

/-- gen6_PIPE_CONTROL (cmd_pipeline.c): append one PIPE_CONTROL packet with
flag word dw1 to the batch; when a post-sync write target buffer is given,
reserve and add one relocation for it. -/
def gen6_PIPE_CONTROL (s : IntelCmd) (dw1 : Nat) (bo : Bool) : IntelCmd :=
  let s1 := { s with batch := s.batch ++ [dw1] }
  if bo then cmd_writer_reloc (cmd_reserve_reloc s1 1) else s1

/-- cmd_wa_gen6_pre_depth_stall_write (cmd_pipeline.c): the flag-guarded
workaround.  No-op before any draw, no-op when already emitted this draw;
otherwise set the idempotency flag and emit a CS-stall/scoreboard-stall
PIPE_CONTROL followed by a post-sync immediate write to the scratch bo. -/
def cmd_wa_gen6_pre_depth_stall_write (s : IntelCmd) : IntelCmd :=
  if s.drawCount = 0 then s
  else if s.waFlags &&& INTEL_CMD_WA_GEN6_PRE_DEPTH_STALL_WRITE ≠ 0 then s
  else
    let s1 := { s with
      waFlags := s.waFlags ||| INTEL_CMD_WA_GEN6_PRE_DEPTH_STALL_WRITE
      waEmits := s.waEmits + 1 }
    let s2 := gen6_PIPE_CONTROL s1
      (GEN6_PIPE_CONTROL_CS_STALL ||| GEN6_PIPE_CONTROL_PIXEL_SCOREBOARD_STALL) false
    gen6_PIPE_CONTROL s2 GEN6_PIPE_CONTROL_WRITE_IMM true

/-- The four companion bits that may accompany a CS stall, as tested by
cmd_batch_flush (the Ivy Bridge PRM list quoted there, minus the post-sync
ops which cmd_batch_flush asserts are absent from its argument). -/
def pipeControlCompanionMask : Nat :=
  GEN6_PIPE_CONTROL_RENDER_CACHE_FLUSH |||
  GEN6_PIPE_CONTROL_DEPTH_CACHE_FLUSH |||
  GEN6_PIPE_CONTROL_PIXEL_SCOREBOARD_STALL |||
  GEN6_PIPE_CONTROL_DEPTH_STALL

/-- cmd_batch_flush (cmd_pipeline.c): no-op on a zero flag word or before
any draw; otherwise run the pre-depth-stall-write workaround when a render
cache flush is requested, add the mandatory scoreboard-stall companion when
the CS-stall bit would otherwise be alone, and emit the packet. -/
def cmd_batch_flush (s : IntelCmd) (pipe_control_dw0 : Nat) : IntelCmd :=
  if pipe_control_dw0 = 0 then s
  else if s.drawCount = 0 then s
  else
    let s1 :=
      if pipe_control_dw0 &&& GEN6_PIPE_CONTROL_RENDER_CACHE_FLUSH ≠ 0 then
        cmd_wa_gen6_pre_depth_stall_write s
      else s
    let dw0 :=
      if pipe_control_dw0 &&& GEN6_PIPE_CONTROL_CS_STALL ≠ 0 ∧
         pipe_control_dw0 &&& pipeControlCompanionMask = 0 then
        pipe_control_dw0 ||| GEN6_PIPE_CONTROL_PIXEL_SCOREBOARD_STALL
      else pipe_control_dw0
    gen6_PIPE_CONTROL s1 dw0 false

/-! ### Helper lemmas -/

@[simp]
theorem cmd_reserve_reloc_batch (s : IntelCmd) (n : Nat) :
    (cmd_reserve_reloc s n).batch = s.batch := by
  rw [cmd_reserve_reloc]
  split <;> rfl

@[simp]
theorem cmd_reserve_reloc_drawCount (s : IntelCmd) (n : Nat) :
    (cmd_reserve_reloc s n).drawCount = s.drawCount := by
  rw [cmd_reserve_reloc]
  split <;> rfl

@[simp]
theorem cmd_reserve_reloc_waFlags (s : IntelCmd) (n : Nat) :
    (cmd_reserve_reloc s n).waFlags = s.waFlags := by
  rw [cmd_reserve_reloc]
  split <;> rfl

@[simp]
theorem cmd_reserve_reloc_waEmits (s : IntelCmd) (n : Nat) :
    (cmd_reserve_reloc s n).waEmits = s.waEmits := by
  rw [cmd_reserve_reloc]
  split <;> rfl

@[simp]
theorem cmd_reserve_reloc_surfUsed (s : IntelCmd) (n : Nat) :
    (cmd_reserve_reloc s n).surfUsed = s.surfUsed := by
  rw [cmd_reserve_reloc]
  split <;> rfl

@[simp]
theorem cmd_reserve_reloc_surfSba (s : IntelCmd) (n : Nat) :
    (cmd_reserve_reloc s n).surfSba = s.surfSba := by
  rw [cmd_reserve_reloc]
  split <;> rfl

@[simp]
theorem cmd_reserve_reloc_surfRecords (s : IntelCmd) (n : Nat) :
    (cmd_reserve_reloc s n).surfRecords = s.surfRecords := by
  rw [cmd_reserve_reloc]
  split <;> rfl

@[simp]
theorem cmd_reserve_reloc_relocCount (s : IntelCmd) (n : Nat) :
    (cmd_reserve_reloc s n).relocCount = s.relocCount := by
  rw [cmd_reserve_reloc]
  split <;> rfl

@[simp]
theorem cmd_reserve_reloc_relocWritten (s : IntelCmd) (n : Nat) :
    (cmd_reserve_reloc s n).relocWritten = s.relocWritten := by
  rw [cmd_reserve_reloc]
  split <;> rfl

@[simp]
theorem gen6_PIPE_CONTROL_batch (s : IntelCmd) (dw1 : Nat) (bo : Bool) :
    (gen6_PIPE_CONTROL s dw1 bo).batch = s.batch ++ [dw1] := by
  rw [gen6_PIPE_CONTROL]
  cases bo
  · rfl
  · show (cmd_writer_reloc (cmd_reserve_reloc _ 1)).batch = _
    rw [cmd_writer_reloc]
    rw [cmd_reserve_reloc_batch]

@[simp]
theorem gen6_PIPE_CONTROL_drawCount (s : IntelCmd) (dw1 : Nat) (bo : Bool) :
    (gen6_PIPE_CONTROL s dw1 bo).drawCount = s.drawCount := by
  rw [gen6_PIPE_CONTROL]
  cases bo
  · rfl
  · show (cmd_writer_reloc (cmd_reserve_reloc _ 1)).drawCount = _
    rw [cmd_writer_reloc]
    rw [cmd_reserve_reloc_drawCount]

@[simp]
theorem gen6_PIPE_CONTROL_waFlags (s : IntelCmd) (dw1 : Nat) (bo : Bool) :
    (gen6_PIPE_CONTROL s dw1 bo).waFlags = s.waFlags := by
  rw [gen6_PIPE_CONTROL]
  cases bo
  · rfl
  · show (cmd_writer_reloc (cmd_reserve_reloc _ 1)).waFlags = _
    rw [cmd_writer_reloc]
    rw [cmd_reserve_reloc_waFlags]

@[simp]
theorem gen6_PIPE_CONTROL_waEmits (s : IntelCmd) (dw1 : Nat) (bo : Bool) :
    (gen6_PIPE_CONTROL s dw1 bo).waEmits = s.waEmits := by
  rw [gen6_PIPE_CONTROL]
  cases bo
  · rfl
  · show (cmd_writer_reloc (cmd_reserve_reloc _ 1)).waEmits = _
    rw [cmd_writer_reloc]
    rw [cmd_reserve_reloc_waEmits]

theorem cmd_wa_batch_skip (s : IntelCmd)
    (h : s.drawCount = 0 ∨ s.waFlags &&& INTEL_CMD_WA_GEN6_PRE_DEPTH_STALL_WRITE ≠ 0) :
    cmd_wa_gen6_pre_depth_stall_write s = s := by
  rcases h with h | h
  · simp [cmd_wa_gen6_pre_depth_stall_write, h]
  · rw [cmd_wa_gen6_pre_depth_stall_write]
    split
    · rfl
    · simp [h]

theorem cmd_wa_batch_emit (s : IntelCmd)
    (hd : s.drawCount ≠ 0)
    (hf : s.waFlags &&& INTEL_CMD_WA_GEN6_PRE_DEPTH_STALL_WRITE = 0) :
    (cmd_wa_gen6_pre_depth_stall_write s).batch =
      s.batch ++
        [GEN6_PIPE_CONTROL_CS_STALL ||| GEN6_PIPE_CONTROL_PIXEL_SCOREBOARD_STALL,
         GEN6_PIPE_CONTROL_WRITE_IMM] := by
  rw [cmd_wa_gen6_pre_depth_stall_write]
  rw [if_neg hd, if_neg (by simp [hf])]
  simp

theorem ne_zero_of_testBit {n : Nat} (i : Nat) (h : n.testBit i = true) : n ≠ 0 := by
  intro h0
  rw [h0] at h
  simp [Nat.zero_testBit] at h

theorem lor_scoreboard_companion (x : Nat) :
    (x ||| GEN6_PIPE_CONTROL_PIXEL_SCOREBOARD_STALL) &&& pipeControlCompanionMask ≠ 0 := by
  apply ne_zero_of_testBit 1
  rw [Nat.testBit_land, Nat.testBit_lor]
  have h1 : GEN6_PIPE_CONTROL_PIXEL_SCOREBOARD_STALL.testBit 1 = true := by decide
  have h2 : pipeControlCompanionMask.testBit 1 = true := by decide
  rw [h1, h2]
  simp

/-- Claim C1: for every barrier or wait-events call resolved by the hazard
resolver, the PIPE_CONTROL flag word finally emitted by cmd_batch_flush
never has the CS-stall bit set alone: every flag word newly appended to the
batch that has GEN6_PIPE_CONTROL_CS_STALL set also has at least one
companion bit (render-cache flush, depth-cache flush, depth stall, or
pixel-scoreboard stall), the pixel-scoreboard-stall bit being added as the
mandatory companion when none would otherwise be present. -/
theorem pipe_control_cs_stall_never_alone (s : IntelCmd) (dw0 w : Nat)
    (hw : w ∈ (cmd_batch_flush s dw0).batch) :
    w ∈ s.batch ∨
      (w &&& GEN6_PIPE_CONTROL_CS_STALL ≠ 0 → w &&& pipeControlCompanionMask ≠ 0) := by
  have hfix : ∀ v : Nat,
      v = (if dw0 &&& GEN6_PIPE_CONTROL_CS_STALL ≠ 0 ∧
              dw0 &&& pipeControlCompanionMask = 0 then
             dw0 ||| GEN6_PIPE_CONTROL_PIXEL_SCOREBOARD_STALL
           else dw0) →
      v &&& GEN6_PIPE_CONTROL_CS_STALL ≠ 0 → v &&& pipeControlCompanionMask ≠ 0 := by
    intro v hv hcs
    rcases Decidable.em (dw0 &&& GEN6_PIPE_CONTROL_CS_STALL ≠ 0 ∧
        dw0 &&& pipeControlCompanionMask = 0) with hc | hc
    · rw [if_pos hc] at hv
      rw [hv]
      exact lor_scoreboard_companion _
    · rw [if_neg hc] at hv
      rw [hv] at hcs ⊢
      rcases Decidable.em (dw0 &&& pipeControlCompanionMask = 0) with hz | hnz
      · exact absurd ⟨hcs, hz⟩ hc
      · exact hnz
  by_cases h0 : dw0 = 0
  · rw [cmd_batch_flush, if_pos h0] at hw
    exact Or.inl hw
  by_cases hdc : s.drawCount = 0
  · rw [cmd_batch_flush, if_neg h0, if_pos hdc] at hw
    exact Or.inl hw
  rw [cmd_batch_flush, if_neg h0, if_neg hdc] at hw
  simp only [gen6_PIPE_CONTROL_batch] at hw
  by_cases hrcf : dw0 &&& GEN6_PIPE_CONTROL_RENDER_CACHE_FLUSH ≠ 0
  · rw [if_pos hrcf] at hw
    by_cases hwf : s.waFlags &&& INTEL_CMD_WA_GEN6_PRE_DEPTH_STALL_WRITE = 0
    · rw [cmd_wa_batch_emit s hdc hwf] at hw
      simp only [List.append_assoc, List.mem_append, List.mem_singleton,
        List.mem_cons, List.not_mem_nil, or_false] at hw
      rcases hw with h | (h | h) | h
      · exact Or.inl h
      · subst h
        exact Or.inr fun _ => lor_scoreboard_companion _
      · subst h
        exact Or.inr fun hcs => absurd hcs (by decide)
      · subst h
        exact Or.inr (hfix _ rfl)
    · rw [cmd_wa_batch_skip s (Or.inr hwf)] at hw
      rw [List.mem_append, List.mem_singleton] at hw
      rcases hw with h | h
      · exact Or.inl h
      · subst h
        exact Or.inr (hfix _ rfl)
  · rw [if_neg hrcf] at hw
    rw [List.mem_append, List.mem_singleton] at hw
    rcases hw with h | h
    · exact Or.inl h
    · subst h
      exact Or.inr (hfix _ rfl)

/-- Witness for C1: a barrier emitting a bare CS stall on a buffer with one
prior draw gets the scoreboard-stall companion added. -/
theorem pipe_control_cs_stall_never_alone_witness :
    (GEN6_PIPE_CONTROL_CS_STALL ||| GEN6_PIPE_CONTROL_PIXEL_SCOREBOARD_STALL) ∈
        ({ freshCmd with drawCount := 1 } : IntelCmd).batch ∨
      ((GEN6_PIPE_CONTROL_CS_STALL ||| GEN6_PIPE_CONTROL_PIXEL_SCOREBOARD_STALL) &&&
          GEN6_PIPE_CONTROL_CS_STALL ≠ 0 →
        (GEN6_PIPE_CONTROL_CS_STALL ||| GEN6_PIPE_CONTROL_PIXEL_SCOREBOARD_STALL) &&&
          pipeControlCompanionMask ≠ 0) :=
  pipe_control_cs_stall_never_alone { freshCmd with drawCount := 1 }
    GEN6_PIPE_CONTROL_CS_STALL
    (GEN6_PIPE_CONTROL_CS_STALL ||| GEN6_PIPE_CONTROL_PIXEL_SCOREBOARD_STALL)
    (by decide)

/-- Claim C5: cmd_batch_flush is a complete no-op (the command buffer is
returned unchanged, nothing written to the batch) when the computed
pipe-control flag word is zero or no draw has yet occurred. -/
theorem batch_flush_noop (s : IntelCmd) (dw0 : Nat)
    (h : dw0 = 0 ∨ s.drawCount = 0) :
    cmd_batch_flush s dw0 = s := by
  rcases h with h | h
  · simp [cmd_batch_flush, h]
  · rw [cmd_batch_flush]
    split
    · rfl
    · simp [h]

/-- Witness for C5: flushing with a zero flag word on a fresh buffer is the
identity. -/
theorem batch_flush_noop_witness : cmd_batch_flush freshCmd 0 = freshCmd :=
  batch_flush_noop freshCmd 0 (Or.inl rfl)

/-! ### Workaround sequencing per draw (claim C3).
cmd_draw (cmd_pipeline.c) invokes the flag-guarded workaround through
several call sites inside emit_bounded_states (one unconditional call, plus
pipeline-conditional calls through emit_graphics_pipeline, emit_ds and the
gen7 wrappers); the epilogue then increments the draw counter, clears the
render-pass-changed flag und clears bind.wa_flags.  cmd_draw_meta invokes
the workaround once and has the same epilogue (with render_pass_changed
forced true).  The state emission irrelevant to the workaround flags is not
modelled; a draw is modelled by how many times its call sites invoke the
guarded workaround (at least the one unconditional call). -/

def applyWaCalls : Nat → IntelCmd → IntelCmd
  | 0, s => s
  | n + 1, s => applyWaCalls n (cmd_wa_gen6_pre_depth_stall_write s)

/-- cmd_draw, restricted to its workaround behaviour: the body invokes the
guarded workaround 1 + extra times, then the epilogue runs (cmd_pipeline.c
lines 3549-3556). -/
def cmd_draw_wa (extra : Nat) (s : IntelCmd) : IntelCmd :=
  let s1 := applyWaCalls (extra + 1) s
  { s1 with drawCount := s1.drawCount + 1, renderPassChanged := false, waFlags := 0 }

/-- cmd_draw_meta, restricted to its workaround behaviour (cmd_pipeline.c
lines 3559-3617): one call to the guarded workaround, then the epilogue. -/
def cmd_draw_meta_wa (s : IntelCmd) : IntelCmd :=
  let s1 := cmd_wa_gen6_pre_depth_stall_write s
  { s1 with drawCount := s1.drawCount + 1, waFlags := 0, renderPassChanged := true }

inductive CmdEvent where
  | draw (extraWaCalls : Nat)
  | meta
deriving DecidableEq

def runEvents : List CmdEvent → IntelCmd → IntelCmd
  | [], s => s
  | CmdEvent.draw k :: es, s => runEvents es (cmd_draw_wa k s)
  | CmdEvent.meta :: es, s => runEvents es (cmd_draw_meta_wa s)

theorem cmd_wa_noop_of_drawCount_zero (s : IntelCmd) (h : s.drawCount = 0) :
    cmd_wa_gen6_pre_depth_stall_write s = s := by
  simp [cmd_wa_gen6_pre_depth_stall_write, h]

theorem cmd_wa_noop_of_flag_set (s : IntelCmd)
    (h : s.waFlags &&& INTEL_CMD_WA_GEN6_PRE_DEPTH_STALL_WRITE ≠ 0) :
    cmd_wa_gen6_pre_depth_stall_write s = s := by
  rw [cmd_wa_gen6_pre_depth_stall_write]
  split
  · rfl
  · simp [h]

theorem applyWaCalls_noop_of_drawCount_zero (n : Nat) (s : IntelCmd)
    (h : s.drawCount = 0) : applyWaCalls n s = s := by
  induction n with
  | zero => rfl
  | succ n ih =>
    rw [applyWaCalls, cmd_wa_noop_of_drawCount_zero s h]
    exact ih

theorem applyWaCalls_noop_of_flag_set (n : Nat) (s : IntelCmd)
    (h : s.waFlags &&& INTEL_CMD_WA_GEN6_PRE_DEPTH_STALL_WRITE ≠ 0) :
    applyWaCalls n s = s := by
  induction n with
  | zero => rfl
  | succ n ih =>
    rw [applyWaCalls, cmd_wa_noop_of_flag_set s h]
    exact ih

theorem cmd_wa_emit_fields (s : IntelCmd)
    (hd : s.drawCount ≠ 0)
    (hf : s.waFlags &&& INTEL_CMD_WA_GEN6_PRE_DEPTH_STALL_WRITE = 0) :
    (cmd_wa_gen6_pre_depth_stall_write s).waEmits = s.waEmits + 1 ∧
    (cmd_wa_gen6_pre_depth_stall_write s).waFlags =
      s.waFlags ||| INTEL_CMD_WA_GEN6_PRE_DEPTH_STALL_WRITE ∧
    (cmd_wa_gen6_pre_depth_stall_write s).drawCount = s.drawCount := by
  rw [cmd_wa_gen6_pre_depth_stall_write]
  rw [if_neg hd, if_neg (by simp [hf])]
  simp

theorem lor_flag_land_self (x : Nat) :
    (x ||| INTEL_CMD_WA_GEN6_PRE_DEPTH_STALL_WRITE) &&&
      INTEL_CMD_WA_GEN6_PRE_DEPTH_STALL_WRITE ≠ 0 := by
  apply ne_zero_of_testBit 0
  rw [Nat.testBit_land, Nat.testBit_lor]
  have h1 : INTEL_CMD_WA_GEN6_PRE_DEPTH_STALL_WRITE.testBit 0 = true := by decide
  rw [h1]
  simp

/-- Per-event accounting: starting from a state whose workaround flag is
clear, one draw or meta event bumps waEmits by one exactly when a draw or
meta-op had already been recorded, increments the draw counter, and leaves
the workaround flags cleared again. -/
theorem event_step_spec (e : CmdEvent) (s : IntelCmd)
    (hf : s.waFlags &&& INTEL_CMD_WA_GEN6_PRE_DEPTH_STALL_WRITE = 0) :
    (runEvents [e] s).waEmits = s.waEmits + (if s.drawCount = 0 then 0 else 1) ∧
    (runEvents [e] s).waFlags = 0 ∧
    (runEvents [e] s).drawCount = s.drawCount + 1 := by
  by_cases hd : s.drawCount = 0
  · cases e with
    | draw k =>
      simp [runEvents, cmd_draw_wa, applyWaCalls_noop_of_drawCount_zero _ s hd, hd]
    | meta =>
      simp [runEvents, cmd_draw_meta_wa, cmd_wa_noop_of_drawCount_zero s hd, hd]
  · have hone := cmd_wa_emit_fields s hd hf
    have hflag : (cmd_wa_gen6_pre_depth_stall_write s).waFlags &&&
        INTEL_CMD_WA_GEN6_PRE_DEPTH_STALL_WRITE ≠ 0 := by
      rw [hone.2.1]
      exact lor_flag_land_self _
    cases e with
    | draw k =>
      rw [runEvents, runEvents, cmd_draw_wa]
      rw [applyWaCalls, applyWaCalls_noop_of_flag_set k _ hflag]
      simp [hone.1, hone.2.2, hd]
    | meta =>
      rw [runEvents, runEvents, cmd_draw_meta_wa]
      simp [hone.1, hone.2.2, hd]

theorem runEvents_append (es fs : List CmdEvent) (s : IntelCmd) :
    runEvents (es ++ fs) s = runEvents fs (runEvents es s) := by
  induction es generalizing s with
  | nil => rfl
  | cons e es ih =>
    cases e with
    | draw k => rw [List.cons_append, runEvents, runEvents, ih]
    | meta => rw [List.cons_append, runEvents, runEvents, ih]

theorem runEvents_spec (es : List CmdEvent) (s : IntelCmd)
    (hf : s.waFlags &&& INTEL_CMD_WA_GEN6_PRE_DEPTH_STALL_WRITE = 0) :
    (runEvents es s).waEmits =
      s.waEmits + (if s.drawCount = 0 then es.length - 1 else es.length) ∧
    (runEvents es s).waFlags = 0 ∨ es = [] ∧ runEvents es s = s := by
  induction es generalizing s with
  | nil => exact Or.inr ⟨rfl, rfl⟩
  | cons e es ih =>
    left
    have hstep := event_step_spec e s hf
    have hsingle : runEvents (e :: es) s = runEvents es (runEvents [e] s) := by
      have := runEvents_append [e] es s
      rw [List.singleton_append] at this
      exact this
    have hf1 : (runEvents [e] s).waFlags &&&
        INTEL_CMD_WA_GEN6_PRE_DEPTH_STALL_WRITE = 0 := by
      rw [hstep.2.1]
      simp [Nat.zero_and]
    rcases ih (runEvents [e] s) hf1 with h | h
    · constructor
      · rw [hsingle, h.1, hstep.1, hstep.2.2]
        have hne : ¬ (s.drawCount + 1 = 0) := by omega
        rw [if_neg hne]
        by_cases hd : s.drawCount = 0 <;> simp [hd] <;> omega
      · rw [hsingle, h.2]
    · constructor
      · rw [hsingle, h.2, hstep.1]
        rw [h.1]
        simp
      · rw [hsingle, h.2, hstep.2.1]

/-- Counterexample to C3 as stated: on the very first draw of a fresh
command buffer the flag-guarded workaround packet sequence is emitted zero
times, not exactly once (cmd_wa_gen6_pre_depth_stall_write returns early
when bind.draw_count is zero). -/
theorem wa_skipped_on_first_draw :
    (runEvents [CmdEvent.draw 0] freshCmd).waEmits = 0 ∧ (0 : Nat) ≠ 1 := by
  constructor
  · decide
  · decide

/-- Claim C3 (amended): for any sequence of draws and meta-operations on a
fresh command buffer, with any number of extra call paths triggering the
flag-guarded workaround within each draw, the workaround body is executed
exactly once per draw except on the very first draw or meta-op of the
recording, where it is skipped (there is no prior draw to stall against);
bind.wa_flags is reset to 0 at the end of every draw and meta-operation and
the draw counter counts every draw and meta-op. -/
theorem wa_once_per_draw_after_first (es : List CmdEvent) :
    (runEvents es freshCmd).waEmits = es.length - 1 ∧
    (runEvents es freshCmd).waFlags = 0 ∧
    (runEvents es freshCmd).drawCount = es.length := by
  have hcount : ∀ fs : List CmdEvent, ∀ t : IntelCmd,
      (runEvents fs t).drawCount = t.drawCount + fs.length := by
    intro fs
    induction fs with
    | nil => intro t; simp [runEvents]
    | cons f fs ih =>
      intro t
      cases f with
      | draw k =>
        rw [runEvents, ih]
        have : (cmd_draw_wa k t).drawCount = t.drawCount + 1 := by
          rw [cmd_draw_wa]
          have : ∀ n u, (applyWaCalls n u).drawCount = u.drawCount := by
            intro n
            induction n with
            | zero => intro u; rfl
            | succ n ihn =>
              intro u
              rw [applyWaCalls, ihn, cmd_wa_gen6_pre_depth_stall_write]
              split
              · rfl
              split
              · rfl
              · simp
          simp [this]
        rw [this]
        rw [List.length_cons]
        omega
      | meta =>
        rw [runEvents, ih]
        have : (cmd_draw_meta_wa t).drawCount = t.drawCount + 1 := by
          rw [cmd_draw_meta_wa, cmd_wa_gen6_pre_depth_stall_write]
          split
          · rfl
          split
          · rfl
          · simp
        rw [this]
        rw [List.length_cons]
        omega
  rcases runEvents_spec es freshCmd (by decide) with h | h
  · refine ⟨?_, h.2, ?_⟩
    · rw [h.1]
      simp [freshCmd]
    · rw [hcount es freshCmd]
      simp [freshCmd]
  · rw [h.2]
    rw [h.1]
    exact ⟨rfl, rfl, rfl⟩

/-! ### Relocation accounting (claim C7).
A recording is a sequence of batches, each a cmd_reserve_reloc call
immediately followed by the writes it covers (the calling discipline stated
in the spec and followed by every call site in cmd_pipeline.c: every
cmd_reserve_reloc n is followed by exactly n reloc additions, with n at
most 3). -/

def cmd_add_relocs : Nat → IntelCmd → IntelCmd
  | 0, s => s
  | n + 1, s => cmd_add_relocs n (cmd_writer_reloc s)

def runRelocBatches : List Nat → IntelCmd → IntelCmd
  | [], s => s
  | n :: rest, s => runRelocBatches rest (cmd_add_relocs n (cmd_reserve_reloc s n))

theorem cmd_add_relocs_spec (n : Nat) (s : IntelCmd) :
    (cmd_add_relocs n s).relocUsed = s.relocUsed + n ∧
    (cmd_add_relocs n s).relocCount = s.relocCount ∧
    ∀ i ∈ (cmd_add_relocs n s).relocWritten,
      i ∈ s.relocWritten ∨ (s.relocUsed ≤ i ∧ i < s.relocUsed + n) := by
  induction n generalizing s with
  | zero =>
    refine ⟨rfl, rfl, ?_⟩
    intro i hi
    exact Or.inl hi
  | succ n ih =>
    rw [cmd_add_relocs]
    rcases ih (cmd_writer_reloc s) with ⟨h1, h2, h3⟩
    refine ⟨?_, ?_, ?_⟩
    · rw [h1]
      simp only [cmd_writer_reloc]
      omega
    · rw [h2]
      rfl
    · intro i hi
      rcases h3 i hi with h | h
      · simp only [cmd_writer_reloc, List.mem_append, List.mem_singleton] at h
        rcases h with h | h
        · exact Or.inl h
        · subst h
          right
          omega
      · simp only [cmd_writer_reloc] at h
        right
        omega

theorem cmd_reserve_reloc_spec (s : IntelCmd) (n : Nat) (hinv : s.relocUsed ≤ s.relocCount) :
    (cmd_reserve_reloc s n).relocUsed ≤ s.relocUsed ∧
    ((cmd_reserve_reloc s n).relocUsed + n ≤ s.relocCount ∨ n > s.relocCount) := by
  rw [cmd_reserve_reloc]
  split
  · refine ⟨Nat.zero_le _, ?_⟩
    show 0 + n ≤ s.relocCount ∨ n > s.relocCount
    omega
  case _ h =>
    refine ⟨Nat.le_refl _, ?_⟩
    omega

theorem runRelocBatches_inv (ops : List Nat) (s : IntelCmd)
    (hinv : s.relocUsed ≤ s.relocCount)
    (hops : ∀ l ∈ ops, l ≤ s.relocCount) :
    (runRelocBatches ops s).relocUsed ≤ (runRelocBatches ops s).relocCount ∧
    (runRelocBatches ops s).relocCount = s.relocCount ∧
    ∀ i ∈ (runRelocBatches ops s).relocWritten,
      i ∈ s.relocWritten ∨ i < s.relocCount := by
  induction ops generalizing s with
  | nil => exact ⟨hinv, rfl, fun i hi => Or.inl hi⟩
  | cons n rest ih =>
    rw [runRelocBatches]
    have hn : n ≤ s.relocCount := hops n (List.mem_cons_self n rest)
    have hres := cmd_reserve_reloc_spec s n hinv
    have hadd := cmd_add_relocs_spec n (cmd_reserve_reloc s n)
    have hcount1 : (cmd_reserve_reloc s n).relocCount = s.relocCount :=
      cmd_reserve_reloc_relocCount s n
    have hused1 : (cmd_add_relocs n (cmd_reserve_reloc s n)).relocUsed ≤ s.relocCount := by
      rw [hadd.1]
      rcases hres.2 with h | h
      · exact h
      · omega
    have hinv2 : (cmd_add_relocs n (cmd_reserve_reloc s n)).relocUsed ≤
        (cmd_add_relocs n (cmd_reserve_reloc s n)).relocCount := by
      rw [hadd.2.1, hcount1]
      exact hused1
    have hops2 : ∀ l ∈ rest, l ≤ (cmd_add_relocs n (cmd_reserve_reloc s n)).relocCount := by
      intro l hl
      rw [hadd.2.1, hcount1]
      exact hops l (List.mem_cons_of_mem n hl)
    rcases ih (cmd_add_relocs n (cmd_reserve_reloc s n)) hinv2 hops2 with ⟨j1, j2, j3⟩
    refine ⟨j1, ?_, ?_⟩
    · rw [j2, hadd.2.1, hcount1]
    · intro i hi
      rcases j3 i hi with h | h
      · rcases hadd.2.2 i h with h2 | h2
        · rw [cmd_reserve_reloc_relocWritten] at h2
          exact Or.inl h2
        · right
          rcases hres.2 with h3 | h3
          · omega
          · omega
      · right
        rw [hadd.2.1, hcount1] at h
        exact h

/-- Claim C7: the stored relocation count never exceeds the pre-reserved
capacity across any recording made of reserve-then-add batches whose
individual reservations fit the capacity; a reservation that would make the
outstanding count exceed the capacity marks the command buffer with the
terminal failure code; and every relocation entry added is written at a
table index within the table bounds. -/
theorem reloc_capacity_invariant (ops : List Nat) (s : IntelCmd) (len : Nat)
    (hinv : s.relocUsed ≤ s.relocCount)
    (hops : ∀ l ∈ ops, l ≤ s.relocCount) :
    ((s.relocUsed + len > s.relocCount) → (cmd_reserve_reloc s len).failed = true) ∧
    (runRelocBatches ops s).relocUsed ≤ (runRelocBatches ops s).relocCount ∧
    (runRelocBatches ops s).relocCount = s.relocCount ∧
    ∀ i ∈ (runRelocBatches ops s).relocWritten,
      i ∈ s.relocWritten ∨ i < s.relocCount := by
  refine ⟨?_, runRelocBatches_inv ops s hinv hops⟩
  intro hover
  rw [cmd_reserve_reloc, if_pos hover]
  rfl

/-- Witness for C7: a recording of three batches of sizes 3, 1, 3 on a
fresh command buffer with capacity 4 (the third reservation overflows). -/
theorem reloc_capacity_invariant_witness :
    ((( { freshCmd with relocCount := 4 } : IntelCmd).relocUsed + 5 >
        ({ freshCmd with relocCount := 4 } : IntelCmd).relocCount) →
      (cmd_reserve_reloc { freshCmd with relocCount := 4 } 5).failed = true) ∧
    (runRelocBatches [3, 1, 3] { freshCmd with relocCount := 4 }).relocUsed ≤
      (runRelocBatches [3, 1, 3] { freshCmd with relocCount := 4 }).relocCount ∧
    (runRelocBatches [3, 1, 3] { freshCmd with relocCount := 4 }).relocCount =
      ({ freshCmd with relocCount := 4 } : IntelCmd).relocCount ∧
    ∀ i ∈ (runRelocBatches [3, 1, 3] { freshCmd with relocCount := 4 }).relocWritten,
      i ∈ ({ freshCmd with relocCount := 4 } : IntelCmd).relocWritten ∨
        i < ({ freshCmd with relocCount := 4 } : IntelCmd).relocCount :=
  reloc_capacity_invariant [3, 1, 3] { freshCmd with relocCount := 4 } 5
    (by decide) (by decide)

/-! ### Unimplemented entry points (claim C9).
The five unimplemented command-buffer operations, as their bodies stand in
cmd_pipeline.c: the two indirect draws and the two dispatches consist of a
single failing assertion; vkCmdPushConstants has an empty body (a TODO
comment).  An assertion failure is modelled as Except.error, a normal
return as Except.ok of the unchanged command buffer. -/

def vkCmdDrawIndirect (s : IntelCmd) : Except Unit IntelCmd := Except.error ()

def vkCmdDrawIndexedIndirect (s : IntelCmd) : Except Unit IntelCmd := Except.error ()

def vkCmdDispatch (s : IntelCmd) : Except Unit IntelCmd := Except.error ()

def vkCmdDispatchIndirect (s : IntelCmd) : Except Unit IntelCmd := Except.error ()

def vkCmdPushConstants (s : IntelCmd) : Except Unit IntelCmd := Except.ok s

/-- Counterexample to C9 as stated: vkCmdPushConstants does not fail; it
silently returns with the command buffer unchanged (its body is only a
TODO comment), so not every unimplemented operation fails loudly. -/
theorem push_constants_silent_noop :
    vkCmdPushConstants freshCmd = Except.ok freshCmd ∧
    vkCmdPushConstants freshCmd ≠ Except.error () :=
  ⟨rfl, by simp [vkCmdPushConstants]⟩

/-- Claim C9 (amended): the unimplemented indirect-draw and dispatch entry
points (vkCmdDrawIndirect, vkCmdDrawIndexedIndirect, vkCmdDispatch,
vkCmdDispatchIndirect) fail loudly with an abort-equivalent assertion when
invoked, while vkCmdPushConstants silently returns as a no-op, leaving the
command buffer unchanged. -/
theorem unimplemented_ops_behavior (s : IntelCmd) :
    vkCmdDrawIndirect s = Except.error () ∧
    vkCmdDrawIndexedIndirect s = Except.error () ∧
    vkCmdDispatch s = Except.error () ∧
    vkCmdDispatchIndirect s = Except.error () ∧
    vkCmdPushConstants s = Except.ok s :=
  ⟨rfl, rfl, rfl, rfl, rfl⟩

/-! ### Primitive restart validation (claim C4).
gen6_can_primitive_restart and the assertion guarding indexed draws in
cmd_draw (cmd_pipeline.c).  3DPRIM topology codes are from genhw/genhw.h
(not under src/); only their distinctness matters below. -/

def GEN6_3DPRIM_POINTLIST : Nat := 0x01

def GEN6_3DPRIM_LINELIST : Nat := 0x02

def GEN6_3DPRIM_LINESTRIP : Nat := 0x03

def GEN6_3DPRIM_TRILIST : Nat := 0x04

def GEN6_3DPRIM_TRISTRIP : Nat := 0x05

def GEN6_3DPRIM_RECTLIST : Nat := 0x0f

inductive VkIndexType where
  | uint16
  | uint32
deriving DecidableEq

/-- The maximum representable index value of each index type (the sentinel
that the claim compares the pipeline's restart index against). -/
def maxRestartIndex : VkIndexType → Nat
  | VkIndexType.uint16 => 0xffff
  | VkIndexType.uint32 => 0xffffffff

/-- gen6_can_primitive_restart (cmd_pipeline.c): at generation 7.5 and
above any topology but RECTLIST supports restart; below, only the five
point/line/tri list/strip topologies do, and only when the pipeline's
restart-index sentinel differs from the index type's maximum value. -/
def gen6_can_primitive_restart (gen primType : Nat) (indexType : VkIndexType)
    (restartIndex : Nat) : Bool :=
  if INTEL_GEN75 ≤ gen then primType != GEN6_3DPRIM_RECTLIST
  else
    let supported :=
      primType == GEN6_3DPRIM_POINTLIST || primType == GEN6_3DPRIM_LINELIST ||
      primType == GEN6_3DPRIM_LINESTRIP || primType == GEN6_3DPRIM_TRILIST ||
      primType == GEN6_3DPRIM_TRISTRIP
    if !supported then false
    else
      match indexType with
      | VkIndexType.uint16 => restartIndex != 0xffff
      | VkIndexType.uint32 => restartIndex != 0xffffffff

/-- The assertion guarding indexed draws in cmd_draw (cmd_pipeline.c line
3524): requesting primitive restart with an unsupported combination fails
the assert.  Returns true when the assertion passes. -/
def cmd_draw_restart_assert_ok (gen primType : Nat) (indexType : VkIndexType)
    (restartIndex : Nat) (primitiveRestart : Bool) : Bool :=
  !(primitiveRestart && !(gen6_can_primitive_restart gen primType indexType restartIndex))

/-- Counterexample to C4 as stated: at generation 7.5 the sentinel is not
checked at all; a TRILIST draw with 16-bit indices whose restart sentinel
equals the maximum representable value 0xffff is accepted as
restart-capable and passes the draw-time assertion, so restart is not
"active only if the sentinel differs from the index maximum". -/
theorem restart_sentinel_not_checked_at_gen75 :
    gen6_can_primitive_restart INTEL_GEN75 GEN6_3DPRIM_TRILIST VkIndexType.uint16 0xffff = true ∧
    maxRestartIndex VkIndexType.uint16 = 0xffff ∧
    cmd_draw_restart_assert_ok INTEL_GEN75 GEN6_3DPRIM_TRILIST VkIndexType.uint16 0xffff true =
      true := by
  refine ⟨by decide, by decide, by decide⟩

/-- Claim C4 (amended): below generation 7.5, primitive restart is
unsupported for RECTLIST topology, and is considered active only if the
pipeline's restart-index sentinel does not equal the index type's maximum
representable value (0xffff for 16-bit indices, 0xffffffff for 32-bit
indices); at generation 7.5 and above the only condition is that the
topology is not RECTLIST (the sentinel is not checked).  Requesting restart
with an unsupported combination is a validated caller contract violation:
the draw-time assertion fails rather than silently correcting it. -/
theorem primitive_restart_rules :
    (∀ gen primType : Nat, ∀ indexType : VkIndexType, ∀ restartIndex : Nat,
      gen < INTEL_GEN75 → primType = GEN6_3DPRIM_RECTLIST →
        gen6_can_primitive_restart gen primType indexType restartIndex = false) ∧
    (∀ gen primType : Nat, ∀ indexType : VkIndexType, ∀ restartIndex : Nat,
      gen < INTEL_GEN75 →
        gen6_can_primitive_restart gen primType indexType restartIndex = true →
        restartIndex ≠ maxRestartIndex indexType) ∧
    (∀ gen primType : Nat, ∀ indexType : VkIndexType, ∀ restartIndex : Nat,
      INTEL_GEN75 ≤ gen →
        (gen6_can_primitive_restart gen primType indexType restartIndex = true ↔
          primType ≠ GEN6_3DPRIM_RECTLIST)) ∧
    (∀ gen primType : Nat, ∀ indexType : VkIndexType, ∀ restartIndex : Nat,
      gen6_can_primitive_restart gen primType indexType restartIndex = false →
        cmd_draw_restart_assert_ok gen primType indexType restartIndex true = false) := by
  refine ⟨?_, ?_, ?_, ?_⟩
  · intro gen primType indexType restartIndex hlt hpt
    subst hpt
    rw [gen6_can_primitive_restart.eq_def, if_neg (by omega)]
    rfl
  · intro gen primType indexType restartIndex hlt htrue
    rw [gen6_can_primitive_restart.eq_def, if_neg (by omega)] at htrue
    cases indexType with
    | uint16 =>
      simp only at htrue
      split at htrue
      · exact absurd htrue (by simp)
      · rw [maxRestartIndex]
        simpa using htrue
    | uint32 =>
      simp only at htrue
      split at htrue
      · exact absurd htrue (by simp)
      · rw [maxRestartIndex]
        simpa using htrue
  · intro gen primType indexType restartIndex hge
    rw [gen6_can_primitive_restart.eq_def, if_pos hge]
    exact bne_iff_ne
  · intro gen primType indexType restartIndex hfalse
    rw [cmd_draw_restart_assert_ok, hfalse]
    rfl

/-- Witness for C4 (amended): concrete instances of the RECTLIST rule below
the threshold and of the failing assertion. -/
theorem primitive_restart_rules_witness :
    gen6_can_primitive_restart INTEL_GEN6 GEN6_3DPRIM_RECTLIST VkIndexType.uint16 0 = false ∧
    cmd_draw_restart_assert_ok INTEL_GEN6 GEN6_3DPRIM_RECTLIST VkIndexType.uint16 0 true =
      false :=
  ⟨primitive_restart_rules.1 INTEL_GEN6 GEN6_3DPRIM_RECTLIST VkIndexType.uint16 0
      (by decide) rfl,
   primitive_restart_rules.2.2.2 INTEL_GEN6 GEN6_3DPRIM_RECTLIST VkIndexType.uint16 0
      (primitive_restart_rules.1 INTEL_GEN6 GEN6_3DPRIM_RECTLIST VkIndexType.uint16 0
        (by decide) rfl)⟩

/-! ### Viewport guard band (claim C10).
viewport_get_guardband (cmd_pipeline.c): an 8192 by 8192 square centered at
the viewport center, with the center clamped towards the addressable
screen-space extent.  The C code computes with int values (the float cast
on the stores is exact for these magnitudes), modelled with Int. -/

def viewport_get_guardband (gen : Nat) (center_x center_y : Int) :
    Int × Int × Int × Int :=
  let max_extent : Int := if INTEL_GEN7 ≤ gen then 32768 else 16384
  let half_len : Int := 8192 / 2
  let cx :=
    if center_x - half_len < -max_extent then -max_extent + half_len
    else if center_x + half_len > max_extent - 1 then max_extent - half_len
    else center_x
  let cy :=
    if center_y - half_len < -max_extent then -max_extent + half_len
    else if center_y + half_len > max_extent - 1 then max_extent - half_len
    else center_y
  (cx - half_len, cx + half_len, cy - half_len, cy + half_len)

/-- Claim C10 evaluated at the failing input: on generation 7 hardware
(max_extent = 32768) a viewport centered at x = 32768 triggers the upper
clamp, yet the resulting guard-band maximum X extent is 32768, which
exceeds the addressable extent bound max_extent - 1 = 32767 claimed by the
specification and by the PRM quote in the code's own comment.  The guard
band is still the claimed 8192-square around the clamped center. -/
theorem guardband_exceeds_extent_at_clamp :
    viewport_get_guardband INTEL_GEN7 32768 0 = (24576, 32768, -4096, 4096) ∧
    ¬ ((32768 : Int) ≤ 32768 - 1) := by
  refine ⟨by decide, by decide⟩

/-! ### The hazard and cache-flush resolver (cmd_barrier.c, claim C6).
Vulkan access-mask and stage-mask bits are from vulkan.h (not under src/);
standard distinct bit positions. -/

def VK_ACCESS_INDIRECT_COMMAND_READ_BIT : Nat := 2 ^ 0

def VK_ACCESS_INDEX_READ_BIT : Nat := 2 ^ 1

def VK_ACCESS_VERTEX_ATTRIBUTE_READ_BIT : Nat := 2 ^ 2

def VK_ACCESS_UNIFORM_READ_BIT : Nat := 2 ^ 3

def VK_ACCESS_SHADER_READ_BIT : Nat := 2 ^ 5

def VK_ACCESS_SHADER_WRITE_BIT : Nat := 2 ^ 6

def VK_ACCESS_COLOR_ATTACHMENT_WRITE_BIT : Nat := 2 ^ 8

def VK_ACCESS_DEPTH_STENCIL_ATTACHMENT_WRITE_BIT : Nat := 2 ^ 10

def VK_ACCESS_TRANSFER_READ_BIT : Nat := 2 ^ 11

def VK_ACCESS_TRANSFER_WRITE_BIT : Nat := 2 ^ 12

def VK_ACCESS_HOST_READ_BIT : Nat := 2 ^ 13

def VK_ACCESS_HOST_WRITE_BIT : Nat := 2 ^ 14

def VK_PIPELINE_STAGE_HOST_BIT : Nat := 2 ^ 14

/-- Bitwise complement within a 32-bit word, written `~x` in the C code. -/
def not32 (x : Nat) : Nat := 0xffffffff ^^^ x

/-! Operation and cache bit-sets of cmd_barrier.c (in-source enums). -/

def READ_OP : Nat := 2 ^ 0

def WRITE_OP : Nat := 2 ^ 1

def HIZ_OP : Nat := 2 ^ 2

def MEM_CACHE : Nat := 2 ^ 0

def DATA_READ_CACHE : Nat := 2 ^ 1

def DATA_WRITE_CACHE : Nat := 2 ^ 2

def RENDER_CACHE : Nat := 2 ^ 3

def SAMPLER_CACHE : Nat := 2 ^ 4

inductive VkImageLayout where
  | undefined
  | general
  | colorAttachmentOptimal
  | depthStencilAttachmentOptimal
  | depthStencilReadOnlyOptimal
  | shaderReadOnlyOptimal
  | transferSrcOptimal
  | transferDstOptimal
  | preinitialized
  | presentSrcKhr
deriving DecidableEq

/-- img_get_layout_ops (cmd_barrier.c).  The C function also receives the
image, which it never reads. -/
def img_get_layout_ops : VkImageLayout → Nat
  | VkImageLayout.general => READ_OP ||| WRITE_OP
  | VkImageLayout.presentSrcKhr => READ_OP ||| WRITE_OP
  | VkImageLayout.colorAttachmentOptimal => READ_OP ||| WRITE_OP
  | VkImageLayout.depthStencilAttachmentOptimal => READ_OP ||| WRITE_OP ||| HIZ_OP
  | VkImageLayout.depthStencilReadOnlyOptimal => READ_OP ||| HIZ_OP
  | VkImageLayout.shaderReadOnlyOptimal => READ_OP
  | VkImageLayout.transferSrcOptimal => READ_OP
  | VkImageLayout.transferDstOptimal => WRITE_OP
  | _ => 0

/-- img_get_layout_caches (cmd_barrier.c).  The C function also receives
the image, which it never reads. -/
def img_get_layout_caches : VkImageLayout → Nat
  | VkImageLayout.general =>
      MEM_CACHE ||| DATA_READ_CACHE ||| DATA_WRITE_CACHE ||| RENDER_CACHE ||| SAMPLER_CACHE
  | VkImageLayout.presentSrcKhr =>
      MEM_CACHE ||| DATA_READ_CACHE ||| DATA_WRITE_CACHE ||| RENDER_CACHE ||| SAMPLER_CACHE
  | VkImageLayout.colorAttachmentOptimal => DATA_WRITE_CACHE ||| RENDER_CACHE
  | VkImageLayout.depthStencilAttachmentOptimal => DATA_WRITE_CACHE ||| RENDER_CACHE
  | VkImageLayout.depthStencilReadOnlyOptimal => RENDER_CACHE
  | VkImageLayout.shaderReadOnlyOptimal => DATA_READ_CACHE ||| SAMPLER_CACHE
  | VkImageLayout.transferSrcOptimal =>
      MEM_CACHE ||| DATA_READ_CACHE ||| RENDER_CACHE ||| SAMPLER_CACHE
  | VkImageLayout.transferDstOptimal => MEM_CACHE ||| DATA_WRITE_CACHE ||| RENDER_CACHE
  | _ => 0

/-- cmd_get_flush_flags (cmd_barrier.c): translate a cache transition into
PIPE_CONTROL flush/invalidate bits, adding a CS stall whenever any bit is
set. -/
def cmd_get_flush_flags (gen old_caches new_caches : Nat) (is_ds : Bool) : Nat :=
  if old_caches &&& (MEM_CACHE ||| RENDER_CACHE ||| DATA_WRITE_CACHE) = 0 then 0
  else
    let flags :=
      (if old_caches &&& RENDER_CACHE ≠ 0 ∧ new_caches &&& not32 RENDER_CACHE ≠ 0 then
         (if is_ds then GEN6_PIPE_CONTROL_DEPTH_CACHE_FLUSH
          else GEN6_PIPE_CONTROL_RENDER_CACHE_FLUSH)
       else 0) |||
      (if old_caches &&& DATA_WRITE_CACHE ≠ 0 ∧
          new_caches &&& not32 (DATA_READ_CACHE ||| DATA_WRITE_CACHE) ≠ 0 ∧
          INTEL_GEN7 ≤ gen then
         GEN7_PIPE_CONTROL_DC_FLUSH
       else 0) |||
      (if new_caches &&& SAMPLER_CACHE ≠ 0 then
         GEN6_PIPE_CONTROL_TEXTURE_CACHE_INVALIDATE
       else 0) |||
      (if new_caches &&& DATA_READ_CACHE ≠ 0 ∧ old_caches ≠ DATA_WRITE_CACHE then
         GEN6_PIPE_CONTROL_CONSTANT_CACHE_INVALIDATE
       else 0)
    if flags = 0 then 0 else flags ||| GEN6_PIPE_CONTROL_CS_STALL

def INTEL_CMD_META_DS_HIZ_RESOLVE : Nat := 2

def INTEL_CMD_META_DS_RESOLVE : Nat := 3

/-- Modelled from the spec: cmd_meta_ds_op (implemented in cmd_meta.c,
which is not under src/) schedules an explicit depth-resolve or
hierarchical-depth-resolve meta-operation, a full-screen depth-buffer-only
meta draw; a meta draw increments the draw counter and clears the per-draw
workaround flags (spec sections 4.5 step 2 and 4.6). -/
def cmd_meta_ds_op (s : IntelCmd) (op : Nat) : IntelCmd :=
  { s with dsOps := s.dsOps ++ [op], drawCount := s.drawCount + 1, waFlags := 0 }

/-- cmd_resolve_depth (cmd_barrier.c): schedule a resolve or HiZ-resolve
meta-op when a write-capable layout transitions out of or into a
HiZ-enabled layout. -/
def cmd_resolve_depth (s : IntelCmd) (old_layout new_layout : VkImageLayout) : IntelCmd :=
  let old_ops := img_get_layout_ops old_layout
  let new_ops := img_get_layout_ops new_layout
  if old_ops &&& WRITE_OP ≠ 0 then
    if old_ops &&& HIZ_OP ≠ 0 ∧ new_ops &&& HIZ_OP = 0 then
      cmd_meta_ds_op s INTEL_CMD_META_DS_RESOLVE
    else if old_ops &&& HIZ_OP = 0 ∧ new_ops &&& HIZ_OP ≠ 0 then
      cmd_meta_ds_op s INTEL_CMD_META_DS_HIZ_RESOLVE
    else s
  else s

structure VkMemoryBarrier where
  srcAccessMask : Nat
  dstAccessMask : Nat
deriving DecidableEq

structure VkBufferMemoryBarrier where
  srcAccessMask : Nat
  dstAccessMask : Nat
deriving DecidableEq

structure VkImageMemoryBarrier where
  srcAccessMask : Nat
  dstAccessMask : Nat
  oldLayout : VkImageLayout
  newLayout : VkImageLayout
  imgIsDs : Bool
deriving DecidableEq

/-- cmd_memory_barriers (cmd_barrier.c): union the source access masks into
the output mask and the destination access masks into the input mask,
resolve depth transitions and accumulate layout-transition flush flags per
image barrier, translate the masks into flush/invalidate bits, and hand the
combined flag word to cmd_batch_flush. -/
def cmd_memory_barriers (s : IntelCmd) (flush_flags : Nat)
    (mem_barriers : List VkMemoryBarrier)
    (buf_mem_barriers : List VkBufferMemoryBarrier)
    (image_mem_barriers : List VkImageMemoryBarrier) : IntelCmd :=
  let output_mask :=
    (mem_barriers.foldl (fun m b => m ||| b.srcAccessMask) 0) |||
    (buf_mem_barriers.foldl (fun m b => m ||| b.srcAccessMask) 0) |||
    (image_mem_barriers.foldl (fun m b => m ||| b.srcAccessMask) 0)
  let input_mask :=
    (mem_barriers.foldl (fun m b => m ||| b.dstAccessMask) 0) |||
    (buf_mem_barriers.foldl (fun m b => m ||| b.dstAccessMask) 0) |||
    (image_mem_barriers.foldl (fun m b => m ||| b.dstAccessMask) 0)
  let s1 := image_mem_barriers.foldl
    (fun st b => cmd_resolve_depth st b.oldLayout b.newLayout) s
  let flags := image_mem_barriers.foldl
    (fun f b => f ||| cmd_get_flush_flags s.gen
      (img_get_layout_caches b.oldLayout) (img_get_layout_caches b.newLayout) b.imgIsDs)
    flush_flags
  let flags := flags |||
    (if output_mask &&& VK_ACCESS_SHADER_WRITE_BIT ≠ 0 then
       GEN7_PIPE_CONTROL_DC_FLUSH else 0) |||
    (if output_mask &&& VK_ACCESS_COLOR_ATTACHMENT_WRITE_BIT ≠ 0 then
       GEN6_PIPE_CONTROL_RENDER_CACHE_FLUSH else 0) |||
    (if output_mask &&& VK_ACCESS_DEPTH_STENCIL_ATTACHMENT_WRITE_BIT ≠ 0 then
       GEN6_PIPE_CONTROL_DEPTH_CACHE_FLUSH else 0) |||
    (if input_mask &&& (VK_ACCESS_SHADER_READ_BIT ||| VK_ACCESS_UNIFORM_READ_BIT) ≠ 0 then
       GEN6_PIPE_CONTROL_TEXTURE_CACHE_INVALIDATE else 0) |||
    (if input_mask &&& VK_ACCESS_UNIFORM_READ_BIT ≠ 0 then
       GEN6_PIPE_CONTROL_CONSTANT_CACHE_INVALIDATE else 0) |||
    (if input_mask &&& VK_ACCESS_VERTEX_ATTRIBUTE_READ_BIT ≠ 0 then
       GEN6_PIPE_CONTROL_VF_CACHE_INVALIDATE else 0)
  cmd_batch_flush s1 flags

/-- vkCmdPipelineBarrier (cmd_barrier.c): a CS stall is requested whenever
either stage mask contains a non-host stage; cache control then happens in
cmd_memory_barriers. -/
def vkCmdPipelineBarrier (s : IntelCmd) (srcStageMask dstStageMask : Nat)
    (mem_barriers : List VkMemoryBarrier)
    (buf_mem_barriers : List VkBufferMemoryBarrier)
    (image_mem_barriers : List VkImageMemoryBarrier) : IntelCmd :=
  let pipe_control_flags :=
    if srcStageMask &&& not32 VK_PIPELINE_STAGE_HOST_BIT ≠ 0 ∨
       dstStageMask &&& not32 VK_PIPELINE_STAGE_HOST_BIT ≠ 0 then
      GEN6_PIPE_CONTROL_CS_STALL
    else 0
  cmd_memory_barriers s pipe_control_flags mem_barriers buf_mem_barriers image_mem_barriers

/-- vkCmdWaitEvents (cmd_barrier.c): identical to the memory-barrier part
of vkCmdPipelineBarrier except that it always forces a CS stall. -/
def vkCmdWaitEvents (s : IntelCmd)
    (mem_barriers : List VkMemoryBarrier)
    (buf_mem_barriers : List VkBufferMemoryBarrier)
    (image_mem_barriers : List VkImageMemoryBarrier) : IntelCmd :=
  cmd_memory_barriers s GEN6_PIPE_CONTROL_CS_STALL
    mem_barriers buf_mem_barriers image_mem_barriers

/-- The single memory barrier of the C6 scenario: srcAccessMask is
HOST_WRITE, dstAccessMask is zero. -/
def hostWriteBarrier : VkMemoryBarrier :=
  { srcAccessMask := VK_ACCESS_HOST_WRITE_BIT, dstAccessMask := 0 }

/-- Counterexample to C6 as stated: a vkCmdPipelineBarrier whose only
barrier is the host-write memory barrier still writes a PIPE_CONTROL
packet when a draw has been recorded and the source stage mask names a
non-host stage (here stage bit 0): the stage-mask-derived CS stall is
emitted with its scoreboard companion even though the barrier itself
contributes zero flush flags. -/
theorem host_write_barrier_still_emits_stall :
    (vkCmdPipelineBarrier { freshCmd with drawCount := 1 } 1 0
        [hostWriteBarrier] [] []).batch =
      [GEN6_PIPE_CONTROL_CS_STALL ||| GEN6_PIPE_CONTROL_PIXEL_SCOREBOARD_STALL] ∧
    ({ freshCmd with drawCount := 1 } : IntelCmd).batch = [] := by
  refine ⟨by decide, rfl⟩

/-- Claim C6 (amended): a barrier call whose barriers consist of the single
memory barrier with srcAccessMask = HOST_WRITE and dstAccessMask = 0 (and
no buffer or image barriers) contributes zero flush flags: the call is
exactly cmd_batch_flush applied to the stage-mask-derived word alone, so it
writes no PIPE_CONTROL packet whenever no draw has yet occurred or both
stage masks are confined to the host stage; with any other stage bit set
and a prior draw, only the stage-derived CS stall (with its mandatory
companion) is emitted. -/
theorem host_write_barrier_no_flush_flags (s : IntelCmd) (srcStageMask dstStageMask : Nat) :
    vkCmdPipelineBarrier s srcStageMask dstStageMask [hostWriteBarrier] [] [] =
      cmd_batch_flush s
        (if srcStageMask &&& not32 VK_PIPELINE_STAGE_HOST_BIT ≠ 0 ∨
            dstStageMask &&& not32 VK_PIPELINE_STAGE_HOST_BIT ≠ 0 then
           GEN6_PIPE_CONTROL_CS_STALL
         else 0) ∧
    (s.drawCount = 0 →
      vkCmdPipelineBarrier s srcStageMask dstStageMask [hostWriteBarrier] [] [] = s) ∧
    (srcStageMask &&& not32 VK_PIPELINE_STAGE_HOST_BIT = 0 ∧
        dstStageMask &&& not32 VK_PIPELINE_STAGE_HOST_BIT = 0 →
      vkCmdPipelineBarrier s srcStageMask dstStageMask [hostWriteBarrier] [] [] = s) := by
  have hmain : vkCmdPipelineBarrier s srcStageMask dstStageMask [hostWriteBarrier] [] [] =
      cmd_batch_flush s
        (if srcStageMask &&& not32 VK_PIPELINE_STAGE_HOST_BIT ≠ 0 ∨
            dstStageMask &&& not32 VK_PIPELINE_STAGE_HOST_BIT ≠ 0 then
           GEN6_PIPE_CONTROL_CS_STALL
         else 0) := by
    rw [vkCmdPipelineBarrier, cmd_memory_barriers]
    simp only [List.foldl_cons, List.foldl_nil, hostWriteBarrier]
    have h1 : (0 ||| VK_ACCESS_HOST_WRITE_BIT ||| 0 ||| 0) &&&
        VK_ACCESS_SHADER_WRITE_BIT = 0 := by decide
    have h2 : (0 ||| VK_ACCESS_HOST_WRITE_BIT ||| 0 ||| 0) &&&
        VK_ACCESS_COLOR_ATTACHMENT_WRITE_BIT = 0 := by decide
    have h3 : (0 ||| VK_ACCESS_HOST_WRITE_BIT ||| 0 ||| 0) &&&
        VK_ACCESS_DEPTH_STENCIL_ATTACHMENT_WRITE_BIT = 0 := by decide
    have h4 : (0 ||| 0 ||| 0 ||| 0) &&&
        (VK_ACCESS_SHADER_READ_BIT ||| VK_ACCESS_UNIFORM_READ_BIT) = 0 := by decide
    have h5 : (0 ||| 0 ||| 0 ||| 0) &&& VK_ACCESS_UNIFORM_READ_BIT = 0 := by decide
    have h6 : (0 ||| 0 ||| 0 ||| 0) &&& VK_ACCESS_VERTEX_ATTRIBUTE_READ_BIT = 0 := by decide
    simp only [h1, h2, h3, h4, h5, h6, ne_eq, not_true_eq_false, not_false_eq_true,
      if_neg, if_pos, Nat.or_zero]
    have g1 : VK_ACCESS_HOST_WRITE_BIT &&& VK_ACCESS_SHADER_WRITE_BIT = 0 := by decide
    have g2 : VK_ACCESS_HOST_WRITE_BIT &&& VK_ACCESS_COLOR_ATTACHMENT_WRITE_BIT = 0 := by
      decide
    have g3 : VK_ACCESS_HOST_WRITE_BIT &&&
        VK_ACCESS_DEPTH_STENCIL_ATTACHMENT_WRITE_BIT = 0 := by decide
    simp [g1, g2, g3]
  refine ⟨hmain, ?_, ?_⟩
  · intro hdc
    rw [hmain, cmd_batch_flush]
    split
    · rfl
    · simp [hdc]
  · intro hhost
    rw [hmain]
    rw [if_neg (by simp [hhost.1, hhost.2])]
    simp [cmd_batch_flush]

/-- Witness for C6 (amended): on a fresh buffer with host-only stage masks
the barrier call leaves the command buffer untouched. -/
theorem host_write_barrier_no_flush_flags_witness :
    vkCmdPipelineBarrier freshCmd VK_PIPELINE_STAGE_HOST_BIT VK_PIPELINE_STAGE_HOST_BIT
        [hostWriteBarrier] [] [] = freshCmd :=
  (host_write_barrier_no_flush_flags freshCmd VK_PIPELINE_STAGE_HOST_BIT
      VK_PIPELINE_STAGE_HOST_BIT).2.2 (by decide)

/-! ### The shader cache (claim C8). -/

/-- u_align (icd utility headers): align v up to a multiple of a.  The C
macro uses the power-of-two bitmask form (v + a - 1) & ~(a - 1), equal to
this division form for the power-of-two alignments used here. -/
def u_align (v a : Nat) : Nat := (v + a - 1) / a * a

/-- cmd_instruction_write (cmd_priv.h): reserve a 64-byte-aligned region of
the instruction writer, copy the kernel and advance the high-water mark by
the kernel size (the extra 128 bytes of prefetch padding only affect
capacity growth, which the writer model elides).  Returns the offset; the
(offset, size) pair is recorded as the upload. -/
def cmd_instruction_write (s : IntelCmd) (size : Nat) : Nat × IntelCmd :=
  let offset := u_align s.instrUsed 64
  (offset,
   { s with
     instrUsed := offset + size
     instrWrites := s.instrWrites ++ [(offset, size)] })

/-- struct intel_pipeline_shader, restricted to what emit_shader reads:
`objId` models the struct's address (each pipeline embeds its own shader
structs, so distinct shader objects have distinct ids — pointer identity is
what the cache compares), `pCode` the kernel blob (codeSize is its
length). -/
structure IntelPipelineShader where
  objId : Nat
  pCode : List Nat
deriving DecidableEq

/-- emit_shader (cmd_pipeline.c): return the cached instruction-buffer
offset when the same shader object is found in the cache; otherwise upload
the kernel, grow the cache by 16 entries when full (the allocation is
modelled as succeeding), and record the (shader, offset) pair. -/
def emit_shader (s : IntelCmd) (shader : IntelPipelineShader) : Nat × IntelCmd :=
  match s.cacheEntries.lookup shader.objId with
  | some offset => (offset, s)
  | none =>
    let offset := (cmd_instruction_write s shader.pCode.length).1
    let s1 := (cmd_instruction_write s shader.pCode.length).2
    let s2 :=
      if s1.cacheCount ≤ s1.cacheEntries.length then
        { s1 with cacheCount := s1.cacheCount + 16 }
      else s1
    let s3 :=
      if s2.cacheEntries.length < s2.cacheCount then
        { s2 with cacheEntries := s2.cacheEntries ++ [(shader.objId, offset)] }
      else s2
    (offset, s3)

theorem lookup_append_of_none {l : List (Nat × Nat)} (k v : Nat)
    (h : l.lookup k = none) : (l ++ [(k, v)]).lookup k = some v := by
  induction l with
  | nil => simp [List.lookup]
  | cons p l ih =>
    rcases p with ⟨a, b⟩
    rw [List.cons_append]
    simp only [List.lookup] at h ⊢
    cases hab : (k == a) with
    | true =>
      rw [hab] at h
      simp at h
    | false =>
      rw [hab] at h
      exact ih h

def shaderA : IntelPipelineShader := { objId := 0, pCode := [7, 7, 7, 7] }

def shaderB : IntelPipelineShader := { objId := 1, pCode := [7, 7, 7, 7] }

/-- Counterexample to C8 as stated: two shader objects carrying an
identical blob but distinct identities (as happens for two pipelines, each
of which embeds its own copy of the shader struct) are not deduplicated:
the second draw's emit_shader returns a different instruction-buffer offset
and uploads the kernel a second time. -/
theorem shader_blob_not_deduped :
    shaderA.pCode = shaderB.pCode ∧
    (emit_shader (emit_shader freshCmd shaderA).2 shaderB).1 ≠
      (emit_shader freshCmd shaderA).1 ∧
    ((emit_shader (emit_shader freshCmd shaderA).2 shaderB).2.instrWrites).length = 2 := by
  refine ⟨rfl, by decide, by decide⟩

/-- Claim C8 (amended): when two draws use the same shader object (the same
intel_pipeline_shader, e.g. by binding the same pipeline for both draws),
the shader cache returns the identical instruction-buffer offset for both
draws and the shader binary is uploaded only once: the second emit_shader
call returns the first call's offset and leaves the command buffer, in
particular the instruction buffer, completely unchanged.  Deduplication is
by shader-object identity, not blob contents. -/
theorem shader_cache_identity_dedup (s : IntelCmd) (shader : IntelPipelineShader)
    (hinv : s.cacheEntries.length ≤ s.cacheCount) :
    (emit_shader (emit_shader s shader).2 shader).1 = (emit_shader s shader).1 ∧
    (emit_shader (emit_shader s shader).2 shader).2 = (emit_shader s shader).2 := by
  cases hl : s.cacheEntries.lookup shader.objId with
  | some offset =>
    have hfirst : emit_shader s shader = (offset, s) := by
      rw [emit_shader.eq_def, hl]
    rw [hfirst]
    simp only
    rw [emit_shader.eq_def, hl]
    exact ⟨rfl, rfl⟩
  | none =>
    have hfirstfst : (emit_shader s shader).1 =
        (cmd_instruction_write s shader.pCode.length).1 := by
      rw [emit_shader.eq_def, hl]
    have hadded : (emit_shader s shader).2.cacheEntries =
        s.cacheEntries ++
          [(shader.objId, (cmd_instruction_write s shader.pCode.length).1)] := by
      rw [emit_shader.eq_def, hl]
      dsimp only [cmd_instruction_write]
      by_cases hg : s.cacheCount ≤ s.cacheEntries.length
      · simp only [hg, if_true]
        rw [if_pos (show s.cacheEntries.length < s.cacheCount + 16 by omega)]
      · simp only [hg, if_false]
        rw [if_pos (show s.cacheEntries.length < s.cacheCount by omega)]
    have hsecond : (emit_shader s shader).2.cacheEntries.lookup shader.objId =
        some (cmd_instruction_write s shader.pCode.length).1 := by
      rw [hadded]
      exact lookup_append_of_none shader.objId _ hl
    constructor
    · rw [emit_shader.eq_def, hsecond, hfirstfst]
    · rw [emit_shader.eq_def, hsecond]

/-- Witness for C8 (amended): recording the same shader object twice on a
fresh buffer returns the same offset twice and performs a single upload. -/
theorem shader_cache_identity_dedup_witness :
    (emit_shader (emit_shader freshCmd shaderA).2 shaderA).1 =
      (emit_shader freshCmd shaderA).1 ∧
    (emit_shader (emit_shader freshCmd shaderA).2 shaderA).2 =
      (emit_shader freshCmd shaderA).2 :=
  shader_cache_identity_dedup freshCmd shaderA (by decide)

/-! ### The binding-table emitter (claim C2).
emit_binding_table (cmd_pipeline.c) and the collaborator data it reads:
the current subpass's color attachment indices, the framebuffer's
attachment views, the bound descriptor-set offsets and the descriptor
region.  Relocation additions accompany every real surface write as in the
C code; the relocation payloads and the dynamic-offset arithmetic only
affect the patched addresses, which the binding-table claim does not
mention, so they go through the reloc counters of the state. -/

structure IntelAttView where
  attCmd : List Nat
deriving DecidableEq

structure IntelRenderPassSubpass where
  colorIndices : List Nat
deriving DecidableEq

structure IntelFb where
  views : List IntelAttView
deriving DecidableEq

/-- struct intel_desc_offset (desc.h): a surface offset and a sampler
offset. -/
structure IntelDescOffset where
  surface : Nat
  sampler : Nat
deriving DecidableEq

/-- intel_desc_offset_add (a static inline in desc.h): componentwise
addition of the two intel_desc_offset operands; the C out-parameter is the
returned value here. -/
def intel_desc_offset_add (a b : IntelDescOffset) : IntelDescOffset :=
  { surface := a.surface + b.surface, sampler := a.sampler + b.sampler }

inductive IntelRmapSlotKind where
  | rt (index : Nat)
  | surface (index : Nat) (offset : IntelDescOffset) (dynamicOffsetIndex : Int)
  | unused
  | other
deriving DecidableEq

/-- struct intel_pipeline_rmap: the per-stage resource map with its four
slot-category counts and the ordered slot array. -/
structure IntelPipelineRmap where
  rtCount : Nat
  textureResourceCount : Nat
  resourceCount : Nat
  uavCount : Nat
  slots : List IntelRmapSlotKind
deriving DecidableEq

/-- surface_count as computed by emit_binding_table: rt_count +
texture_resource_count + resource_count + uav_count. -/
def rmapSurfaceCount (r : IntelPipelineRmap) : Nat :=
  r.rtCount + r.textureResourceCount + r.resourceCount + r.uavCount

/-- The read-only collaborator state emit_binding_table consults: the
current subpass and framebuffer, the bound descriptor-set offsets and
dynamic offsets (cmd->bind.dset.graphics_data), and the descriptor region.
The region is an association from descriptor offsets to (read_only,
surface-state words) for slots with a backing memory object; absent
entries are the "empty"/unset descriptor case of
intel_desc_region_read_surface (desc.c, not under src/, modelled from the
spec as the read accessor returning either a backing object with
precomputed surface-state words or nothing for unused slots). -/
structure BindEnv where
  subpass : IntelRenderPassSubpass
  fb : IntelFb
  setOffsets : List IntelDescOffset
  dynamicOffsets : List Nat
  region : List (IntelDescOffset × (Bool × List Nat))
deriving DecidableEq

/-- Modelled from the spec: intel_null_view_init (view.c, not under src/)
fills a hardware-valid but inert SURFACE_STATE record; its six words are
all zero here — only its identity as a well-formed null-view record
matters. -/
def intel_null_view_cmd : List Nat := [0, 0, 0, 0, 0, 0]

/-- genhw alignment constants (genhw/genhw.h, not under src/); cmd_priv.h
asserts every surface alignment is a multiple of 32 bytes. -/
def GEN6_ALIGNMENT_SURFACE_STATE : Nat := 32

def GEN6_ALIGNMENT_BINDING_TABLE_STATE : Nat := 32

def surfRecordLen : SurfRecord → Nat
  | SurfRecord.surface w => w.length
  | SurfRecord.nullView w => w.length
  | SurfRecord.table e => e.length

/-- cmd_surface_write (cmd_priv.h): reserve an aligned region of the
surface writer, advance the high-water mark by the record's byte size
(len << 2) and record the written words.  Returns the byte offset. -/
def cmd_surface_write (s : IntelCmd) (alignment : Nat) (rec : SurfRecord) :
    Nat × IntelCmd :=
  let offset := u_align s.surfUsed alignment
  (offset,
   { s with
     surfUsed := offset + 4 * surfRecordLen rec
     surfRecords := s.surfRecords ++ [(offset, rec)] })

/-- The null-view fallback of emit_binding_table: write a null-view
surface record and return its offset relative to the surface base
address. -/
def writeNullView (s : IntelCmd) (sba : Nat) : Nat × IntelCmd :=
  let r := cmd_surface_write s GEN6_ALIGNMENT_SURFACE_STATE
    (SurfRecord.nullView intel_null_view_cmd)
  (r.1 - sba, r.2)

/-- One iteration of emit_binding_table's slot loop (cmd_pipeline.c): a
render-target slot resolves through the subpass color indices and the
framebuffer views; a surface slot resolves through the descriptor region at
the slot's offset plus the bound set's offset; an unused slot (or the
asserting default case) falls back to the null view.  Resolved slots write
the view's surface words followed by one reserved relocation; every entry
is the record's offset minus the surface base address. -/
def emit_binding_table_slot (env : BindEnv) (sba : Nat) (slot : IntelRmapSlotKind)
    (s : IntelCmd) : Nat × IntelCmd :=
  match slot with
  | IntelRmapSlotKind.rt index =>
    let ci := env.subpass.colorIndices.getD index 0
    let view :=
      if index < env.subpass.colorIndices.length ∧ ci < env.fb.views.length then
        some (env.fb.views.getD ci { attCmd := [] })
      else none
    match view with
    | some v =>
      let r := cmd_surface_write s GEN6_ALIGNMENT_SURFACE_STATE (SurfRecord.surface v.attCmd)
      (r.1 - sba, cmd_writer_reloc (cmd_reserve_reloc r.2 1))
    | none => writeNullView s sba
  | IntelRmapSlotKind.surface index offset _ =>
    let descOffset := intel_desc_offset_add offset
      (env.setOffsets.getD index { surface := 0, sampler := 0 })
    match env.region.lookup descOffset with
    | some rd =>
      let r := cmd_surface_write s GEN6_ALIGNMENT_SURFACE_STATE (SurfRecord.surface rd.2)
      (r.1 - sba, cmd_writer_reloc (cmd_reserve_reloc r.2 1))
    | none => writeNullView s sba
  | IntelRmapSlotKind.unused => writeNullView s sba
  | IntelRmapSlotKind.other => writeNullView s sba

def emit_binding_table_loop (env : BindEnv) (sba : Nat) :
    List IntelRmapSlotKind → IntelCmd → IntelCmd × List Nat
  | [], s => (s, [])
  | slot :: rest, s =>
    let r := emit_binding_table_slot env sba slot s
    let q := emit_binding_table_loop env sba rest r.2
    (q.1, r.1 :: q.2)

/-- emit_binding_table (cmd_pipeline.c): nothing to do without a resource
map or with a zero surface count; otherwise one entry per slot for the
first surface_count slots, then the binding table itself is written to the
surface writer, its offset returned relative to the surface base
address. -/
def emit_binding_table (env : BindEnv) (rmap : Option IntelPipelineRmap)
    (s : IntelCmd) : Nat × IntelCmd :=
  let sba := s.surfSba
  match rmap with
  | none => (0, s)
  | some r =>
    if rmapSurfaceCount r = 0 then (0, s)
    else
      let q := emit_binding_table_loop env sba (r.slots.take (rmapSurfaceCount r)) s
      let w := cmd_surface_write q.1 GEN6_ALIGNMENT_BINDING_TABLE_STATE (SurfRecord.table q.2)
      (w.1 - sba, w.2)

/-- A binding-table entry is well-formed when it refers to a real surface
record or to the null-view record. -/
def slotRecordOk (r : SurfRecord) : Prop :=
  (∃ w, r = SurfRecord.surface w) ∨ r = SurfRecord.nullView intel_null_view_cmd

theorem le_u_align32 (v : Nat) : v ≤ u_align v 32 := by
  show v ≤ (v + 31) / 32 * 32
  have h1 := Nat.div_add_mod (v + 31) 32
  have h2 : (v + 31) % 32 < 32 := Nat.mod_lt _ (by omega)
  omega

@[simp]
theorem cmd_writer_reloc_surfUsed (s : IntelCmd) :
    (cmd_writer_reloc s).surfUsed = s.surfUsed := rfl

@[simp]
theorem cmd_writer_reloc_surfSba (s : IntelCmd) :
    (cmd_writer_reloc s).surfSba = s.surfSba := rfl

@[simp]
theorem cmd_writer_reloc_surfRecords (s : IntelCmd) :
    (cmd_writer_reloc s).surfRecords = s.surfRecords := rfl

theorem write_entry_spec (s : IntelCmd) (sba : Nat) (rec : SurfRecord)
    (hs : sba ≤ s.surfUsed) :
    sba ≤ (cmd_surface_write s GEN6_ALIGNMENT_SURFACE_STATE rec).2.surfUsed ∧
    (cmd_surface_write s GEN6_ALIGNMENT_SURFACE_STATE rec).2.surfSba = s.surfSba ∧
    (∀ x ∈ s.surfRecords,
      x ∈ (cmd_surface_write s GEN6_ALIGNMENT_SURFACE_STATE rec).2.surfRecords) ∧
    (((cmd_surface_write s GEN6_ALIGNMENT_SURFACE_STATE rec).1 - sba) + sba, rec) ∈
      (cmd_surface_write s GEN6_ALIGNMENT_SURFACE_STATE rec).2.surfRecords := by
  have halign : s.surfUsed ≤ u_align s.surfUsed GEN6_ALIGNMENT_SURFACE_STATE :=
    le_u_align32 s.surfUsed
  have hoff : sba ≤ (cmd_surface_write s GEN6_ALIGNMENT_SURFACE_STATE rec).1 :=
    le_trans hs halign
  refine ⟨?_, rfl, ?_, ?_⟩
  · show sba ≤ u_align s.surfUsed GEN6_ALIGNMENT_SURFACE_STATE + 4 * surfRecordLen rec
    omega
  · intro x hx
    show x ∈ s.surfRecords ++ [_]
    exact List.mem_append_left _ hx
  · rw [Nat.sub_add_cancel hoff]
    show ((cmd_surface_write s GEN6_ALIGNMENT_SURFACE_STATE rec).1, rec) ∈
      s.surfRecords ++ [((cmd_surface_write s GEN6_ALIGNMENT_SURFACE_STATE rec).1, rec)]
    exact List.mem_append_right _ (List.mem_singleton.mpr rfl)

theorem emit_binding_table_slot_spec (env : BindEnv) (sba : Nat)
    (slot : IntelRmapSlotKind) (s : IntelCmd) (hs : sba ≤ s.surfUsed) :
    sba ≤ (emit_binding_table_slot env sba slot s).2.surfUsed ∧
    (emit_binding_table_slot env sba slot s).2.surfSba = s.surfSba ∧
    (∀ x ∈ s.surfRecords, x ∈ (emit_binding_table_slot env sba slot s).2.surfRecords) ∧
    ∃ rec, ((emit_binding_table_slot env sba slot s).1 + sba, rec) ∈
        (emit_binding_table_slot env sba slot s).2.surfRecords ∧ slotRecordOk rec := by
  have hnull : ∀ t : IntelCmd, sba ≤ t.surfUsed →
      sba ≤ (writeNullView t sba).2.surfUsed ∧
      (writeNullView t sba).2.surfSba = t.surfSba ∧
      (∀ x ∈ t.surfRecords, x ∈ (writeNullView t sba).2.surfRecords) ∧
      ∃ rec, ((writeNullView t sba).1 + sba, rec) ∈ (writeNullView t sba).2.surfRecords ∧
        slotRecordOk rec := by
    intro t ht
    have h := write_entry_spec t sba (SurfRecord.nullView intel_null_view_cmd) ht
    exact ⟨h.1, h.2.1, h.2.2.1,
      ⟨SurfRecord.nullView intel_null_view_cmd, h.2.2.2, Or.inr rfl⟩⟩
  have hreal : ∀ t : IntelCmd, ∀ w : List Nat, sba ≤ t.surfUsed →
      sba ≤ (cmd_writer_reloc (cmd_reserve_reloc
          (cmd_surface_write t GEN6_ALIGNMENT_SURFACE_STATE (SurfRecord.surface w)).2
          1)).surfUsed ∧
      (cmd_writer_reloc (cmd_reserve_reloc
          (cmd_surface_write t GEN6_ALIGNMENT_SURFACE_STATE (SurfRecord.surface w)).2
          1)).surfSba = t.surfSba ∧
      (∀ x ∈ t.surfRecords, x ∈ (cmd_writer_reloc (cmd_reserve_reloc
          (cmd_surface_write t GEN6_ALIGNMENT_SURFACE_STATE (SurfRecord.surface w)).2
          1)).surfRecords) ∧
      ∃ rec, (((cmd_surface_write t GEN6_ALIGNMENT_SURFACE_STATE
            (SurfRecord.surface w)).1 - sba) + sba, rec) ∈
          (cmd_writer_reloc (cmd_reserve_reloc
            (cmd_surface_write t GEN6_ALIGNMENT_SURFACE_STATE (SurfRecord.surface w)).2
            1)).surfRecords ∧ slotRecordOk rec := by
    intro t w ht
    have h := write_entry_spec t sba (SurfRecord.surface w) ht
    refine ⟨?_, ?_, ?_, ?_⟩
    · rw [cmd_writer_reloc_surfUsed, cmd_reserve_reloc_surfUsed]
      exact h.1
    · rw [cmd_writer_reloc_surfSba, cmd_reserve_reloc_surfSba]
      exact h.2.1
    · intro x hx
      rw [cmd_writer_reloc_surfRecords, cmd_reserve_reloc_surfRecords]
      exact h.2.2.1 x hx
    · refine ⟨SurfRecord.surface w, ?_, Or.inl ⟨w, rfl⟩⟩
      rw [cmd_writer_reloc_surfRecords, cmd_reserve_reloc_surfRecords]
      exact h.2.2.2
  cases slot with
  | rt index =>
    rw [emit_binding_table_slot]
    split
    · exact hreal _ _ hs
    · exact hnull s hs
  | surface index offset dynIdx =>
    rw [emit_binding_table_slot]
    split
    · exact hreal _ _ hs
    · exact hnull s hs
  | unused => exact hnull s hs
  | other => exact hnull s hs

theorem emit_binding_table_loop_spec (env : BindEnv) (sba : Nat)
    (slots : List IntelRmapSlotKind) : ∀ s : IntelCmd, sba ≤ s.surfUsed →
    sba ≤ (emit_binding_table_loop env sba slots s).1.surfUsed ∧
    (emit_binding_table_loop env sba slots s).1.surfSba = s.surfSba ∧
    (∀ x ∈ s.surfRecords, x ∈ (emit_binding_table_loop env sba slots s).1.surfRecords) ∧
    (emit_binding_table_loop env sba slots s).2.length = slots.length ∧
    ∀ e ∈ (emit_binding_table_loop env sba slots s).2,
      ∃ rec, (e + sba, rec) ∈ (emit_binding_table_loop env sba slots s).1.surfRecords ∧
        slotRecordOk rec := by
  induction slots with
  | nil =>
    intro s hs
    exact ⟨hs, rfl, fun x hx => hx, rfl, fun e he => absurd he (List.not_mem_nil e)⟩
  | cons slot rest ih =>
    intro s hs
    have hslot := emit_binding_table_slot_spec env sba slot s hs
    have hrest := ih (emit_binding_table_slot env sba slot s).2 hslot.1
    rw [emit_binding_table_loop]
    refine ⟨hrest.1, ?_, ?_, ?_, ?_⟩
    · rw [hrest.2.1, hslot.2.1]
    · intro x hx
      exact hrest.2.2.1 x (hslot.2.2.1 x hx)
    · show _ + 1 = _ + 1
      rw [hrest.2.2.2.1]
    · intro e he
      rw [List.mem_cons] at he
      rcases he with he | he
      · subst he
        rcases hslot.2.2.2 with ⟨rec, hmem, hok⟩
        exact ⟨rec, hrest.2.2.1 _ hmem, hok⟩
      · exact hrest.2.2.2.2 e he

/-- Claim C2: for every shader-stage resource map with surface_count > 0
(its slot array as long as its slot counts claim) and any subset of its
slots unresolved (render target absent from the current subpass or
framebuffer, descriptor entry empty, slot unused), emit_binding_table
writes a binding-table record with exactly surface_count entries, and every
entry's offset (relative to the surface base address) refers to a record
previously written into the surface buffer that is either a real
surface-state record or the well-formed null-view record — no entry is left
uninitialized. -/
theorem binding_table_fully_populated (env : BindEnv) (r : IntelPipelineRmap)
    (s : IntelCmd)
    (hcount : 0 < rmapSurfaceCount r)
    (hlen : r.slots.length = rmapSurfaceCount r)
    (hsba : s.surfSba ≤ s.surfUsed) :
    ∃ entries : List Nat,
      ((emit_binding_table env (some r) s).1 + s.surfSba, SurfRecord.table entries) ∈
        (emit_binding_table env (some r) s).2.surfRecords ∧
      entries.length = rmapSurfaceCount r ∧
      ∀ e ∈ entries, ∃ rec,
        (e + s.surfSba, rec) ∈ (emit_binding_table env (some r) s).2.surfRecords ∧
          slotRecordOk rec := by
  have hloop := emit_binding_table_loop_spec env s.surfSba
    (r.slots.take (rmapSurfaceCount r)) s hsba
  have hne : ¬ (rmapSurfaceCount r = 0) := by omega
  have hemit : emit_binding_table env (some r) s =
      (let q := emit_binding_table_loop env s.surfSba
          (r.slots.take (rmapSurfaceCount r)) s
       let w := cmd_surface_write q.1 GEN6_ALIGNMENT_BINDING_TABLE_STATE
          (SurfRecord.table q.2)
       (w.1 - s.surfSba, w.2)) := by
    rw [emit_binding_table]
    simp only [hne, if_false]
  have hwrite := write_entry_spec
    (emit_binding_table_loop env s.surfSba (r.slots.take (rmapSurfaceCount r)) s).1
    s.surfSba
    (SurfRecord.table
      (emit_binding_table_loop env s.surfSba (r.slots.take (rmapSurfaceCount r)) s).2)
    hloop.1
  refine ⟨(emit_binding_table_loop env s.surfSba
      (r.slots.take (rmapSurfaceCount r)) s).2, ?_, ?_, ?_⟩
  · rw [hemit]
    exact hwrite.2.2.2
  · rw [hloop.2.2.2.1, List.length_take, hlen]
    exact Nat.min_self _
  · intro e he
    rcases hloop.2.2.2.2 e he with ⟨rec, hmem, hok⟩
    refine ⟨rec, ?_, hok⟩
    rw [hemit]
    exact hwrite.2.2.1 _ hmem

/-- A concrete environment for the C2 witness: a render pass with no color
attachments and an empty descriptor region, so every slot of the resource
map is unresolved. -/
def emptyBindEnv : BindEnv :=
  { subpass := { colorIndices := [] }
    fb := { views := [] }
    setOffsets := []
    dynamicOffsets := []
    region := [] }

def rtOnlyRmap : IntelPipelineRmap :=
  { rtCount := 1
    textureResourceCount := 0
    resourceCount := 0
    uavCount := 0
    slots := [IntelRmapSlotKind.rt 0] }

/-- Witness for C2: a one-slot resource map whose render target is absent
from the subpass still yields a fully populated one-entry binding table. -/
theorem binding_table_fully_populated_witness :
    ∃ entries : List Nat,
      ((emit_binding_table emptyBindEnv (some rtOnlyRmap) freshCmd).1 +
          freshCmd.surfSba, SurfRecord.table entries) ∈
        (emit_binding_table emptyBindEnv (some rtOnlyRmap) freshCmd).2.surfRecords ∧
      entries.length = rmapSurfaceCount rtOnlyRmap ∧
      ∀ e ∈ entries, ∃ rec,
        (e + freshCmd.surfSba, rec) ∈
            (emit_binding_table emptyBindEnv (some rtOnlyRmap) freshCmd).2.surfRecords ∧
          slotRecordOk rec :=
  binding_table_fully_populated emptyBindEnv rtOnlyRmap freshCmd
    (by decide) (by decide) (by decide)

end VulkanToolsSpec
